import Mathlib

/-!
Verification of `src/scripts/generate-reports.py`: a utility that loads a
YAML compliance mapping, aggregates coverage statistics over its list of
controls, and renders an HTML report.

The embedding models the script's three steps — loader, aggregator,
renderer — as pure Lean functions, with the fallible steps returning
`Except PyError`.
-/

/-- A control record.  The script only ever reads `c['status']`; all
claims concern controls that carry a `status` field, so a control is
modelled as its status string (per the spec's data model, metadata
fields are pass-through and never inspected by the aggregator). -/
structure Control where
  status : String
deriving DecidableEq, Repr

/-- The dictionary returned by `calculate_coverage` (lines 23-29). -/
structure CoverageStats where
  total : Nat
  implemented : Nat
  in_progress : Nat
  not_implemented : Nat
  percentage : Rat
deriving DecidableEq, Repr

/-- Floor of a rational, computed on numerator and denominator with
floor division (`Rat.den` is always positive). -/
def ratFloor (q : Rat) : Int :=
  Int.fdiv q.num q.den

/-- Round a rational to the nearest integer, ties to the even integer:
the rounding mode of Python 3's built-in `round`. -/
def roundHalfEven (q : Rat) : Int :=
  let f := ratFloor q
  let frac := q - (f : Rat)
  if frac < 1/2 then f
  else if 1/2 < frac then f + 1
  else if f % 2 = 0 then f else f + 1

/-- Python's `round(x, 1)`: round to one decimal digit, ties to even. -/
def pyRound1 (q : Rat) : Rat :=
  (roundHalfEven (10 * q) : Rat) / 10

/-- `calculate_coverage` (lines 16-29): `total = len(controls)`, one
count per recognized status via `sum(1 for c in controls if
c['status'] == ...)`, and `percentage = round((implemented / total) *
100, 1) if total > 0 else 0`. -/
def calculate_coverage (controls : List Control) : CoverageStats :=
  let total := controls.length
  let implemented := controls.countP (fun c => c.status == "implemented")
  let in_progress := controls.countP (fun c => c.status == "in_progress")
  let not_implemented := controls.countP (fun c => c.status == "not_implemented")
  { total := total
    implemented := implemented
    in_progress := in_progress
    not_implemented := not_implemented
    percentage :=
      if total > 0 then pyRound1 (((implemented : Rat) / (total : Rat)) * 100) else 0 }

/-- The percentage as the spec's testable property states it:
`round(100 * i / n, 1)` when `n > 0`, and `0` when `n == 0`. -/
def percentage_spec (i n : Nat) : Rat :=
  if n > 0 then pyRound1 ((100 * (i : Rat)) / (n : Rat)) else 0

/-- A control's status is one of the three recognized values. -/
def recognizedb (c : Control) : Bool :=
  c.status == "implemented" || c.status == "in_progress" || c.status == "not_implemented"

/-- Errors the script can raise, named after the Python exceptions:
`KeyError` from a missing dictionary key, `NameError` from an unbound
name, `FileNotFoundError` from `open` on a missing file, and
`yaml.YAMLError` from `yaml.safe_load` on unparseable input. -/
inductive PyError
  | keyError (k : String)
  | nameError (n : String)
  | fileNotFoundError
  | yamlError
deriving DecidableEq, Repr

/-- The parsed YAML document: either it has a top-level `controls` key
holding a sequence of controls, or it does not (`controlsKey = none`,
in which case `mapping['controls']` raises `KeyError`). -/
structure MappingDoc where
  controlsKey : Option (List Control)
deriving DecidableEq, Repr

/-- The state of the input file `compliance-mapping.yml` as the loader
finds it: absent (`open` raises `FileNotFoundError`), present but not
parseable (`yaml.safe_load` raises), or parseable to a document. -/
inductive LoadInput
  | absent
  | unparseable
  | parsed (m : MappingDoc)
deriving DecidableEq, Repr

/-- `load_mapping` (lines 11-14): opens and parses the YAML file.  It
performs no schema validation of its own; any parsed document is
returned as-is. -/
def load_mapping : LoadInput → Except PyError MappingDoc
  | .absent => .error .fileNotFoundError
  | .unparseable => .error .yamlError
  | .parsed m => .ok m

/-- What a successful run would produce: the HTML written to
`reports/compliance-report.html` and the two lines printed to stdout
(lines 63-69). -/
structure RunSuccess where
  htmlOut : String
  stdoutLines : List String
deriving DecidableEq, Repr

/-- `generate_html` (lines 31-69).  It reads `mapping['controls']`
(`KeyError` when the key is absent), computes the coverage, and then
builds the f-string template.  Evaluating the template looks up
`generate_control_sections` (line 58), a name bound nowhere in the
program, so the interpolation raises `NameError` before the output
path is touched and before anything is printed. -/
def generate_html (m : MappingDoc) : Except PyError RunSuccess :=
  match m.controlsKey with
  | none => .error (.keyError "controls")
  | some cs =>
    let _coverage := calculate_coverage cs
    .error (.nameError "generate_control_sections")

/-- The `__main__` block (lines 71-73): load, then render. -/
def main_run (inp : LoadInput) : Except PyError RunSuccess := do
  let m ← load_mapping inp
  generate_html m

/-- Whether a run reaches the success path (report written, messages
printed). -/
def runSucceeds (inp : LoadInput) : Bool :=
  match main_run inp with
  | .ok _ => true
  | .error _ => false

/-- FormatError per the spec's words (section 4.1): the failure kind
raised when "the file is absent or not parseable as the expected
structure".  Used to compare the spec's error taxonomy with the
exceptions the code raises. -/
def FormatErrorSpec : PyError → Bool
  | .fileNotFoundError => true
  | .yamlError => true
  | _ => false

/-! The HTML template of lines 36-61, split at its three interpolation
points: the timestamp, `coverage['total']`, and the
`generate_control_sections(mapping['controls'])` call. -/

def htmlPartA : String :=
  "\n    <!DOCTYPE html>\n    <html>\n    <head>\n        <title>MUFG NIST Compliance Report</title>\n        <!-- Include the CSS from earlier -->\n    </head>\n    <body>\n        <div class=\"header\">\n            <h1>NIST 800-53 Compliance Report</h1>\n            <p>Generated: "

def htmlPartB : String :=
  "</p>\n        </div>\n        \n        <div class=\"coverage-summary\">\n            <div class=\"coverage-card\">\n                <h3>Total Controls</h3>\n                <div class=\"number\">"

def htmlPartC : String :=
  "</div>\n            </div>\n            <!-- More cards -->\n        </div>\n        \n        <!-- Generate control sections -->\n        "

def htmlPartD : String :=
  "\n    </body>\n    </html>\n    "

/-- Modelled from the spec: `generate_control_sections` is called at
line 58 but defined nowhere in the repository; the spec requires "a
rendered section per control".  The renderer is therefore modelled
relative to an arbitrary deterministic section generator `secs`, and
the template text around it is taken verbatim from the source.  `ts`
stands for `datetime.now().strftime('%B %d, %Y')`, the only
non-deterministic interpolation. -/
def htmlRender (secs : List Control → String) (ts : String) (cs : List Control) : String :=
  htmlPartA ++ ts ++ htmlPartB ++ toString (calculate_coverage cs).total
    ++ htmlPartC ++ secs cs ++ htmlPartD

/-! Helper lemmas about the rounding arithmetic. -/

theorem ratFloor_intCast (n : Int) : ratFloor (n : Rat) = n := by
  simp [ratFloor]

theorem roundHalfEven_intCast (n : Int) : roundHalfEven (n : Rat) = n := by
  unfold roundHalfEven
  rw [ratFloor_intCast]
  norm_num

/-- Each control lands in exactly one of the four pairwise-disjoint
buckets: the three recognized statuses and the unrecognized rest. -/
theorem countP_status_partition (controls : List Control) :
    controls.countP (fun c => c.status == "implemented")
      + controls.countP (fun c => c.status == "in_progress")
      + controls.countP (fun c => c.status == "not_implemented")
      + controls.countP (fun c => !recognizedb c)
      = controls.length := by
  induction controls with
  | nil => rfl
  | cons c l ih =>
    simp only [List.countP_cons, List.length_cons]
    by_cases h1 : c.status = "implemented" <;>
      by_cases h2 : c.status = "in_progress" <;>
      by_cases h3 : c.status = "not_implemented" <;>
      simp_all [recognizedb] <;> omega

/-- C1: for a list of `n` controls of which `i` are `implemented`, the
aggregator's percentage equals the spec's `round(100 * i / n, 1)` when
`n > 0` (and `0` when `n = 0`, as `percentage_spec` also guards); and
on the empty list it returns all-zero stats without failing. -/
theorem coverage_percentage_matches_spec (controls : List Control) :
    (calculate_coverage controls).percentage
      = percentage_spec (controls.countP (fun c => c.status == "implemented")) controls.length
    ∧ calculate_coverage ([] : List Control)
      = { total := 0, implemented := 0, in_progress := 0, not_implemented := 0, percentage := 0 } := by
  constructor
  · simp only [calculate_coverage, percentage_spec]
    by_cases h : controls.length > 0
    · simp only [h, if_true]
      congr 1
      rw [div_mul_eq_mul_div, mul_comm]
    · simp [h]
  · rfl

/-- C2: when every control's status is one of the three recognized
values, the three buckets sum to the total. -/
theorem coverage_buckets_sum_to_total (controls : List Control)
    (h : ∀ c ∈ controls,
      c.status = "implemented" ∨ c.status = "in_progress" ∨ c.status = "not_implemented") :
    (calculate_coverage controls).implemented + (calculate_coverage controls).in_progress
      + (calculate_coverage controls).not_implemented = (calculate_coverage controls).total := by
  have hz : controls.countP (fun c => !recognizedb c) = 0 := by
    rw [List.countP_eq_zero]
    intro c hc
    rcases h c hc with h' | h' | h' <;> simp [recognizedb, h']
  have hp := countP_status_partition controls
  simp only [calculate_coverage]
  omega

theorem coverage_buckets_sum_to_total_witness :
    (calculate_coverage [⟨"implemented"⟩, ⟨"in_progress"⟩]).implemented
      + (calculate_coverage [⟨"implemented"⟩, ⟨"in_progress"⟩]).in_progress
      + (calculate_coverage [⟨"implemented"⟩, ⟨"in_progress"⟩]).not_implemented
      = (calculate_coverage [⟨"implemented"⟩, ⟨"in_progress"⟩]).total :=
  coverage_buckets_sum_to_total [⟨"implemented"⟩, ⟨"in_progress"⟩] (by decide)

/-- C3 counterexample: on a parsed document with no `controls` key the
loader does not fail — it returns the document unchanged.  The claimed
`SchemaError` from the loader does not exist in the program. -/
theorem loader_accepts_missing_controls :
    load_mapping (LoadInput.parsed { controlsKey := none })
      = .ok { controlsKey := none } := rfl

/-- C3 amended: on a parsed document with no `controls` key the loader
succeeds, and the run then fails with `KeyError('controls')` when the
renderer subscripts the mapping; the run therefore ends in an error
and the report file is never written. -/
theorem missing_controls_fails_in_renderer (m : MappingDoc)
    (h : m.controlsKey = none) :
    main_run (LoadInput.parsed m) = .error (PyError.keyError "controls") := by
  obtain ⟨ck⟩ := m
  cases ck with
  | none => rfl
  | some cs => simp at h

theorem missing_controls_fails_in_renderer_witness :
    main_run (LoadInput.parsed { controlsKey := none })
      = .error (PyError.keyError "controls") :=
  missing_controls_fails_in_renderer { controlsKey := none } rfl

/-- C4: evaluation at the failing input — on a well-formed mapping the
renderer raises `NameError` at the template interpolation (line 58),
before any HTML is produced or written, so the produced report can
never contain the claimed counts, percentage, or control sections.
(The template text itself interpolates only the timestamp and
`coverage['total']`.) -/
theorem renderer_dies_before_emitting_report :
    generate_html { controlsKey := some [⟨"implemented"⟩] }
      = .error (PyError.nameError "generate_control_sections") := rfl

/-- C5: when the input file is absent or unparseable, the loader fails
with the corresponding exception (`FileNotFoundError` resp.
`yaml.YAMLError`), that same error aborts the whole run, and it falls
under the spec's FormatError description (section 4.1: file absent or
not parseable); no output is produced since `main_run` yields no
`RunSuccess`. -/
theorem load_failure_aborts_run (inp : LoadInput)
    (h : inp = LoadInput.absent ∨ inp = LoadInput.unparseable) :
    ∃ e : PyError, load_mapping inp = .error e ∧ main_run inp = .error e
      ∧ FormatErrorSpec e = true := by
  rcases h with h | h <;> subst h
  · exact ⟨.fileNotFoundError, rfl, rfl, rfl⟩
  · exact ⟨.yamlError, rfl, rfl, rfl⟩

theorem load_failure_aborts_run_witness :
    ∃ e : PyError, load_mapping LoadInput.absent = .error e
      ∧ main_run LoadInput.absent = .error e ∧ FormatErrorSpec e = true :=
  load_failure_aborts_run LoadInput.absent (Or.inl rfl)

/-- C6: the four-control example yields total 4, implemented 2,
in-progress 1, not-implemented 1, percentage 50.0. -/
theorem coverage_example_four_controls :
    calculate_coverage [⟨"implemented"⟩, ⟨"implemented"⟩, ⟨"in_progress"⟩, ⟨"not_implemented"⟩]
      = { total := 4, implemented := 2, in_progress := 1, not_implemented := 1, percentage := 50 } := by
  have h : (10 : Rat) * ((2 : Rat) / (4 : Rat) * 100) = ((500 : Int) : Rat) := by
    norm_num
  simp [calculate_coverage, List.countP, List.countP.go, pyRound1]
  rw [h, roundHalfEven_intCast]
  norm_num

/-- C7: evaluation over all inputs — no run of the program ever
reaches the success path (the report write and the two stdout
messages), because the renderer fails with `NameError` whenever the
`controls` key is present and with `KeyError` when it is not, and the
loader's errors abort the run earlier. -/
theorem run_never_reaches_success_output (inp : LoadInput) :
    runSucceeds inp = false := by
  cases inp with
  | absent => rfl
  | unparseable => rfl
  | parsed m =>
    obtain ⟨ck⟩ := m
    cases ck <;> rfl

/-- C8: the rendering is deterministic in the input once the timestamp
is factored out — for any section generator and any two timestamps,
the rendered documents share a common pre/post decomposition around
the timestamp, and that decomposition depends only on the control
list. -/
theorem render_deterministic_modulo_timestamp (secs : List Control → String)
    (cs : List Control) (ts1 ts2 : String) :
    ∃ pre post : String,
      htmlRender secs ts1 cs = pre ++ ts1 ++ post
        ∧ htmlRender secs ts2 cs = pre ++ ts2 ++ post := by
  refine ⟨htmlPartA,
    htmlPartB ++ toString (calculate_coverage cs).total ++ htmlPartC ++ secs cs ++ htmlPartD,
    ?_, ?_⟩ <;>
    simp [htmlRender, String.append_assoc]

/-- C9: whenever the mapping has a `controls` key, the renderer fails
with the unbound-name error for `generate_control_sections` before the
output file is written and before the success messages. -/
theorem controls_key_triggers_nameerror (m : MappingDoc) (cs : List Control)
    (h : m.controlsKey = some cs) :
    generate_html m = .error (PyError.nameError "generate_control_sections") := by
  simp [generate_html, h]

theorem controls_key_triggers_nameerror_witness :
    generate_html { controlsKey := some [] }
      = .error (PyError.nameError "generate_control_sections") :=
  controls_key_triggers_nameerror { controlsKey := some [] } [] rfl

/-- C10: a control with an unrecognized status is counted in `total`
but in none of the three buckets, so the buckets sum to strictly less
than the total; dropping the unrecognized controls leaves the
implemented count unchanged while strictly shrinking the total, so the
unrecognized control weighs down the coverage ratio instead of being
rejected (`calculate_coverage` is total and raises nothing). -/
theorem unrecognized_status_counted_only_in_total (controls : List Control) (c : Control)
    (hmem : c ∈ controls) (h1 : c.status ≠ "implemented")
    (h2 : c.status ≠ "in_progress") (h3 : c.status ≠ "not_implemented") :
    (calculate_coverage controls).implemented + (calculate_coverage controls).in_progress
        + (calculate_coverage controls).not_implemented < (calculate_coverage controls).total
    ∧ (controls.filter recognizedb).countP (fun c => c.status == "implemented")
        = controls.countP (fun c => c.status == "implemented")
    ∧ (controls.filter recognizedb).length < controls.length := by
  have hcpos : 0 < controls.countP (fun c => !recognizedb c) :=
    List.countP_pos_iff.mpr ⟨c, hmem, by simp [recognizedb, h1, h2, h3]⟩
  refine ⟨?_, ?_, ?_⟩
  · have hp := countP_status_partition controls
    simp only [calculate_coverage]
    omega
  · rw [List.countP_filter]
    exact List.countP_congr (by
      intro a _
      constructor
      · intro ha
        exact (Bool.and_elim_left ha)
      · intro ha
        simp only [Bool.and_eq_true]
        refine ⟨ha, ?_⟩
        simp only [recognizedb, Bool.or_eq_true]
        exact Or.inl (Or.inl ha))
  · have hlen : (controls.filter recognizedb).length = controls.countP recognizedb :=
      (List.countP_eq_length_filter recognizedb controls).symm
    have hsum := List.length_eq_countP_add_countP recognizedb controls
    simp only [decide_not, Bool.decide_eq_true] at hsum
    omega

theorem unrecognized_status_counted_only_in_total_witness :
    ((calculate_coverage [⟨"implemented"⟩, ⟨"wontfix"⟩]).implemented
        + (calculate_coverage [⟨"implemented"⟩, ⟨"wontfix"⟩]).in_progress
        + (calculate_coverage [⟨"implemented"⟩, ⟨"wontfix"⟩]).not_implemented
        < (calculate_coverage [⟨"implemented"⟩, ⟨"wontfix"⟩]).total)
    ∧ (([⟨"implemented"⟩, ⟨"wontfix"⟩] : List Control).filter recognizedb).countP
          (fun c => c.status == "implemented")
        = ([⟨"implemented"⟩, ⟨"wontfix"⟩] : List Control).countP (fun c => c.status == "implemented")
    ∧ (([⟨"implemented"⟩, ⟨"wontfix"⟩] : List Control).filter recognizedb).length
        < ([⟨"implemented"⟩, ⟨"wontfix"⟩] : List Control).length :=
  unrecognized_status_counted_only_in_total [⟨"implemented"⟩, ⟨"wontfix"⟩] ⟨"wontfix"⟩
    (by decide) (by decide) (by decide) (by decide)
